import Mathlib

/-!
Shallow embedding of the personal-finance Telegram bot
(src/finance_bot.py, src/export_handler.py) and proofs about its
conversation state machine, transaction creation, reporting and queries.

Modelling conventions:
  - Python floats are modelled as rationals; the relevant fragment of the
    builtin float(str) parser (optional sign, decimal digits, optional
    fractional part) is modelled by pyFloat.
  - The per-user scratch dictionary context.user_data is modelled by the
    UserData record with Option fields (none = key absent).
  - Database writes that may raise are modelled by a Boolean storeOk
    parameter: true = the INSERT committed, false = sqlite raised, in
    which case the statements following the call in the handler body do
    not execute (exception propagation).
  - Dates are modelled as day indices (Nat); ISO date strings compare
    lexicographically exactly like their day indices.
-/

namespace FinanceBot

/-- Value of a list of decimal digit characters. -/
def digitsToNat (ds : List Char) : Nat :=
  ds.foldl (fun acc c => 10 * acc + (c.toNat - '0'.toNat)) 0

/-- Model of the decimal fragment of the Python builtin float(str):
optional sign, then digits with an optional fractional part.
Returns none when Python float() would raise ValueError on such input. -/
def pyFloat (s : String) : Option Rat :=
  let cs := s.data
  let (neg, cs) :=
    match cs with
    | '-' :: r => (true, r)
    | '+' :: r => (false, r)
    | _ => (false, cs)
  let intPart := cs.takeWhile Char.isDigit
  let rest := cs.dropWhile Char.isDigit
  let mk : Rat → Option Rat := fun v => some (if neg then -v else v)
  match rest with
  | [] => if intPart.isEmpty then none else mk (mkRat (digitsToNat intPart) 1)
  | '.' :: frac =>
      if frac.all Char.isDigit && (!intPart.isEmpty || !frac.isEmpty) then
        mk (mkRat (digitsToNat intPart * 10 ^ frac.length + digitsToNat frac)
              (10 ^ frac.length))
      else none
  | _ => none

/-- The default category catalog seeded by init_database (name, type);
the emoji column is display-only and omitted. -/
def default_categories : List (String × String) :=
  [("Food & Dining", "expense"),
   ("Transportation", "expense"),
   ("Shopping", "expense"),
   ("Entertainment", "expense"),
   ("Bills & Utilities", "expense"),
   ("Healthcare", "expense"),
   ("Travel", "expense"),
   ("Other Expenses", "expense"),
   ("Salary", "income"),
   ("Freelance", "income"),
   ("Investment", "income"),
   ("Other Income", "income")]

/-- FinanceBot.get_categories: names of catalog categories of the given type. -/
def get_categories (ttype : String) : List String :=
  (default_categories.filter (fun p => p.2 = ttype)).map (fun p => p.1)

/-- All category names in the catalog. -/
def catalogNames : List String := default_categories.map (fun p => p.1)

/-- A transaction row as inserted by FinanceBot.add_transaction
(id, date and created_at omitted: date defaults to the entry day and the
flow claims do not depend on it). -/
structure Txn where
  user_id : Int
  chat_id : Int
  type : String
  amount : Rat
  category : String
  description : String
deriving DecidableEq, Repr

/-- The conversation step stored under the awaiting key of user_data. -/
inductive Awaiting
  | category
  | amount
  | description
deriving DecidableEq, Repr

/-- The per-user scratch dictionary context.user_data; a field is none
when the corresponding key is absent. -/
structure UserData where
  transaction_type : Option String
  category : Option String
  amount : Option Rat
  awaiting : Option Awaiting
deriving DecidableEq, Repr

/-- The state after context.user_data.clear(). -/
def UserData.empty : UserData := ⟨none, none, none, none⟩

/-- Outbound replies the handlers send, reduced to the cases the claims
mention. -/
inductive Msg
  | selectCategoryPrompt (ttype : String)
  | categorySelected (category : String)
  | invalidAmount
  | promptDescription (amount : Rat)
  | committed (t : Txn)
deriving DecidableEq, Repr

/-- BotHandlers._add_transaction (reached from /add_expense and
/add_income): stores the transaction type, sets awaiting to category and
sends the category keyboard.  It does not touch the category and amount
keys. -/
def addTransactionCmd (ud : UserData) (ttype : String) : UserData × List Msg :=
  ({ ud with transaction_type := some ttype, awaiting := some .category },
   [.selectCategoryPrompt ttype])

/-- BotHandlers.handle_category_selection: splits the callback data into
transaction type and category, stores both, sets awaiting to amount.
The handler performs no check of the current state and no catalog
membership check. -/
def handle_category_selection (ud : UserData) (ttype category : String) :
    UserData × List Msg :=
  ({ ud with category := some category, transaction_type := some ttype,
             awaiting := some .amount },
   [.categorySelected category])

/-- BotHandlers.handle_message: dispatch on the awaiting key.  In the
amount step float(text) is attempted; success stores the amount (no sign
check) and moves to the description step, failure replies with the
invalid-amount message and changes nothing.  In the description step the
transaction is inserted; when the insert raises (storeOk = false) the
clear() after it never executes. -/
def handle_message (uid cid : Int) (storeOk : Bool) (ud : UserData)
    (text : String) : UserData × List Txn × List Msg :=
  match ud.awaiting with
  | none => (ud, [], [])
  | some .category => (ud, [], [])
  | some .amount =>
      match pyFloat text with
      | some a =>
          ({ ud with amount := some a, awaiting := some .description },
           [], [.promptDescription a])
      | none => (ud, [], [.invalidAmount])
  | some .description =>
      match ud.transaction_type, ud.category, ud.amount with
      | some tt, some c, some a =>
          if storeOk then
            let t : Txn := ⟨uid, cid, tt, a, c, text⟩
            (UserData.empty, [t], [.committed t])
          else (ud, [], [])
      | _, _, _ => (ud, [], [])

/-- BotHandlers.skip_description (/skip): only acts when awaiting is the
description step; commits with the fixed placeholder text.  When the
insert raises (storeOk = false) the clear() after it never executes. -/
def skip_description (uid cid : Int) (storeOk : Bool) (ud : UserData) :
    UserData × List Txn × List Msg :=
  if ud.awaiting = some .description then
    match ud.transaction_type, ud.category, ud.amount with
    | some tt, some c, some a =>
        if storeOk then
          let t : Txn := ⟨uid, cid, tt, a, c, "No description"⟩
          (UserData.empty, [t], [.committed t])
        else (ud, [], [])
    | _, _, _ => (ud, [], [])
  else (ud, [], [])

/-- Inbound events of the manual entry flow. -/
inductive Event
  | startFlow (ttype : String)
  | selectCategory (ttype category : String)
  | text (s : String)
  | skip
deriving DecidableEq, Repr

/-- One event dispatched to the corresponding handler. -/
def step (uid cid : Int) (storeOk : Bool) (ud : UserData) :
    Event → UserData × List Txn × List Msg
  | .startFlow tt =>
      ((addTransactionCmd ud tt).1, [], (addTransactionCmd ud tt).2)
  | .selectCategory tt c =>
      ((handle_category_selection ud tt c).1, [],
       (handle_category_selection ud tt c).2)
  | .text s => handle_message uid cid storeOk ud s
  | .skip => skip_description uid cid storeOk ud

/-- A sequence of events; collects the inserted transactions and the
replies. -/
def run (uid cid : Int) (storeOk : Bool) (ud : UserData) :
    List Event → UserData × List Txn × List Msg
  | [] => (ud, [], [])
  | e :: es =>
      let r1 := step uid cid storeOk ud e
      let r2 := run uid cid storeOk r1.1 es
      (r2.1, r1.2.1 ++ r2.2.1, r1.2.2 ++ r2.2.2)

/-- Structured receipt extraction result (the JSON parsed in
process_image_with_gpt4v); a field is none when the key is absent from
the model response. -/
structure ExtractedData where
  amount : Option Rat
  merchant : Option String
  category : Option String
  items : List String
deriving DecidableEq, Repr

/-- BotHandlers.handle_extracted_transaction, save_extracted branch with
a successful insert: kind fixed to expense, amount defaults to 0 when
the key is absent, category defaults to Other Expenses, description is
the merchant (default Receipt) followed by the first two items. -/
def handle_extracted_transaction (uid cid : Int) (ed : ExtractedData) : Txn :=
  { user_id := uid, chat_id := cid, type := "expense",
    amount := ed.amount.getD 0,
    category := ed.category.getD "Other Expenses",
    description :=
      ed.merchant.getD "Receipt" ++ " - " ++
        String.intercalate ", " (ed.items.take 2) }

/-- A stored transaction row as read back from the transactions table;
date is a day index (ISO date strings compare lexicographically exactly
like day indices), id and created_at are omitted. -/
structure Row where
  user_id : Int
  chat_id : Int
  type : String
  amount : Rat
  category : String
  description : String
  date : Nat
deriving DecidableEq, Repr

/-- Python truthiness of the chat_id argument: None and 0 are falsy. -/
def truthy : Option Int → Bool
  | none => false
  | some c => c != 0

/-- The ORDER BY date DESC relation. -/
def dateDesc (a b : Row) : Prop := b.date ≤ a.date

instance : DecidableRel dateDesc :=
  fun a b => inferInstanceAs (Decidable (b.date ≤ a.date))

instance : IsTotal Row dateDesc :=
  ⟨fun a b => Nat.le_total b.date a.date⟩

instance : IsTrans Row dateDesc :=
  ⟨fun _ _ _ hab hbc => Nat.le_trans hbc hab⟩

/-- FinanceBot.get_user_transactions over the table contents: filters by
user, by chat only when chat_id is truthy, and by date at least
now - days; returns rows ordered by date descending. -/
def get_user_transactions (rows : List Row) (user_id : Int)
    (chat_id : Option Int) (now days : Nat) : List Row :=
  let date_limit := now - days
  let selected :=
    if truthy chat_id then
      rows.filter (fun t =>
        decide (t.user_id = user_id ∧ some t.chat_id = chat_id ∧ date_limit ≤ t.date))
    else
      rows.filter (fun t =>
        decide (t.user_id = user_id ∧ date_limit ≤ t.date))
  List.insertionSort dateDesc selected

/-- Sum of the amount column of a list of rows. -/
def sumAmounts (ts : List Row) : Rat := (ts.map (fun t => t.amount)).sum

/-- Category names in first-occurrence order, duplicates removed; models
the insertion order of the Python dict built in the summary loop. -/
def dedupFirst : List String → List String
  | [] => []
  | c :: cs => c :: dedupFirst (cs.filter (fun x => x != c))
termination_by l => l.length
decreasing_by
  simp_wf
  exact Nat.lt_succ_of_le (List.length_filter_le _ _)

/-- The expense_by_category dict of BotHandlers.summary: per-category
totals of the expense rows, in first-occurrence order. -/
def expense_by_category (ts : List Row) : List (String × Rat) :=
  let ex := ts.filter (fun t => t.type == "expense")
  (dedupFirst (ex.map (fun t => t.category))).map
    (fun c => (c, sumAmounts (ex.filter (fun t => t.category == c))))

/-- The guarded percentage expression of BotHandlers.summary:
(amount / total_expenses * 100) if total_expenses > 0 else 0. -/
def pct (amount total_expenses : Rat) : Rat :=
  if 0 < total_expenses then amount / total_expenses * 100 else 0

/-- Result of BotHandlers.summary: either the explicit no-data reply or
the totals with the top five expense categories (name, amount,
percentage). -/
inductive SummaryResult
  | noData
  | data (total_income total_expenses net_balance : Rat)
         (top_categories : List (String × Rat × Rat))
deriving DecidableEq, Repr

/-- BotHandlers.summary over the fetched rows: empty list replies with
the no-data message and returns before any aggregation; otherwise totals
by kind and the top five expense categories sorted by amount descending,
each with its guarded percentage. -/
def summary (ts : List Row) : SummaryResult :=
  if ts.isEmpty then .noData
  else
    let total_income := sumAmounts (ts.filter (fun t => t.type == "income"))
    let total_expenses := sumAmounts (ts.filter (fun t => t.type == "expense"))
    let sortedCats := List.insertionSort (fun a b : String × Rat => b.2 ≤ a.2)
      (expense_by_category ts)
    .data total_income total_expenses (total_income - total_expenses)
      ((sortedCats.take 5).map (fun p => (p.1, p.2, pct p.2 total_expenses)))

/-- Result of generate_weekly_summary in export_handler.py: either the
no-data triple (None, message, None) or the rendered charts, abstracted
to the aggregates they plot (total and per-category sums; chart file
output and pandas grouping order are display details and abstracted). -/
inductive WeeklySummary
  | noData (message : String)
  | charts (total : Rat) (by_category : List (String × Rat))
deriving DecidableEq, Repr

/-- export_handler.generate_weekly_summary over the fetched expenditure
rows: the df.empty guard returns the no-data message before any
aggregation or plotting. -/
def generate_weekly_summary (rows : List Row) : WeeklySummary :=
  if rows.isEmpty then .noData "No expenditures found for the past 7 days."
  else .charts (sumAmounts rows)
    ((dedupFirst (rows.map (fun t => t.category))).map
      (fun c => (c, sumAmounts (rows.filter (fun t => t.category == c)))))

/-- A transaction_type key that is absent or holds one of the two kinds;
this is what the bot's own commands and keyboards maintain. -/
def kindOK (o : Option String) : Prop :=
  o = none ∨ o = some "expense" ∨ o = some "income"

/-- Events whose transaction-type tag is one of the two kinds; every
event generated by the bot's own command handlers and keyboards
satisfies this. -/
def eventKindsOK : Event → Bool
  | .startFlow tt => tt == "expense" || tt == "income"
  | .selectCategory tt _ => tt == "expense" || tt == "income"
  | .text _ => true
  | .skip => true

/-- Simulation relation between two scratch states that agree on the
step and the transaction type, on the category whenever an amount is
awaited, and entirely whenever no flow is active or a description is
awaited; related states are indistinguishable to every handler. -/
def scratchSim (s1 s2 : UserData) : Prop :=
  s1.awaiting = s2.awaiting ∧
  s1.transaction_type = s2.transaction_type ∧
  (s1.awaiting = some .amount → s1.category = s2.category) ∧
  ((s1.awaiting = none ∨ s1.awaiting = some .description) → s1 = s2)

/-! ## Theorems -/

theorem scratchSim_refl (s : UserData) : scratchSim s s :=
  ⟨rfl, rfl, fun _ => rfl, fun _ => rfl⟩

theorem step_kindOK (uid cid : Int) (ok : Bool) (ud : UserData) (e : Event)
    (h0 : kindOK ud.transaction_type) (he : eventKindsOK e = true) :
    kindOK (step uid cid ok ud e).1.transaction_type ∧
    ∀ t ∈ (step uid cid ok ud e).2.1,
      t.type = "expense" ∨ t.type = "income" := by
  obtain ⟨tt, c, a, w⟩ := ud
  cases e with
  | startFlow tt2 =>
      simp only [eventKindsOK, Bool.or_eq_true, beq_iff_eq] at he
      simp [step, addTransactionCmd, kindOK]
      tauto
  | selectCategory tt2 c2 =>
      simp only [eventKindsOK, Bool.or_eq_true, beq_iff_eq] at he
      simp [step, handle_category_selection, kindOK]
      tauto
  | text s =>
      cases w with
      | none => simpa [step, handle_message, kindOK] using h0
      | some aw =>
        cases aw with
        | category => simpa [step, handle_message, kindOK] using h0
        | amount =>
            cases hp : pyFloat s with
            | some v => simpa [step, handle_message, hp, kindOK] using h0
            | none => simpa [step, handle_message, hp, kindOK] using h0
        | description =>
            cases tt with
            | none => simp [step, handle_message, kindOK]
            | some tval =>
              cases c with
              | none => simpa [step, handle_message, kindOK] using h0
              | some cval =>
                cases a with
                | none => simpa [step, handle_message, kindOK] using h0
                | some aval =>
                    cases ok with
                    | false => simpa [step, handle_message, kindOK] using h0
                    | true =>
                        simp only [kindOK, Option.some.injEq, reduceCtorEq,
                          false_or] at h0
                        simp [step, handle_message, kindOK]
                        tauto
  | skip =>
      cases w with
      | none => simpa [step, skip_description, kindOK] using h0
      | some aw =>
        cases aw with
        | category => simpa [step, skip_description, kindOK] using h0
        | amount => simpa [step, skip_description, kindOK] using h0
        | description =>
            cases tt with
            | none => simp [step, skip_description, kindOK]
            | some tval =>
              cases c with
              | none => simpa [step, skip_description, kindOK] using h0
              | some cval =>
                cases a with
                | none => simpa [step, skip_description, kindOK] using h0
                | some aval =>
                    cases ok with
                    | false => simpa [step, skip_description, kindOK] using h0
                    | true =>
                        simp only [kindOK, Option.some.injEq, reduceCtorEq,
                          false_or] at h0
                        simp [step, skip_description, kindOK]
                        tauto

theorem run_kindOK (uid cid : Int) (ok : Bool) :
    ∀ (evs : List Event) (ud : UserData), kindOK ud.transaction_type →
      (∀ e ∈ evs, eventKindsOK e = true) →
      ∀ t ∈ (run uid cid ok ud evs).2.1,
        t.type = "expense" ∨ t.type = "income" := by
  intro evs
  induction evs with
  | nil => intro ud _ _ t ht; simp [run] at ht
  | cons e es ih =>
      intro ud h0 hevs t ht
      have hstep := step_kindOK uid cid ok ud e h0 (hevs e (by simp))
      simp only [run, List.mem_append] at ht
      rcases ht with ht | ht
      · exact hstep.2 t ht
      · exact ih (step uid cid ok ud e).1 hstep.1
          (fun x hx => hevs x (by simp [hx])) t ht

/-- C1 counterexample: the input "-5" parses to the non-positive number
-5, yet handle_message in the amount step accepts it, stores the amount
and advances to the description step with no validation message --
contradicting the claim that non-positive input leaves the state
unchanged and signals a ValidationError. -/
theorem submit_amount_accepts_nonpositive :
    pyFloat "-5" = some (-5) ∧ ((-5 : Rat) ≤ 0) ∧
    (handle_message 1 2 true ⟨some "expense", some "Food & Dining", none, some .amount⟩ "-5").1 =
      ⟨some "expense", some "Food & Dining", some (-5), some .description⟩ ∧
    (handle_message 1 2 true ⟨some "expense", some "Food & Dining", none, some .amount⟩ "-5").2.2 =
      [.promptDescription (-5)] := by
  decide

/-- C1 (amended): in the AWAITING_AMOUNT step, submit_amount accepts and
advances to AWAITING_DESCRIPTION if and only if the text parses as a
number -- there is no positivity check, so zero and negative amounts are
accepted as well; on parse failure the scratch state is unchanged and
the invalid-amount re-prompt is sent. -/
theorem submit_amount_accepts_iff_parses (uid cid : Int) (storeOk : Bool)
    (ud : UserData) (s : String) (h : ud.awaiting = some .amount) :
    (∀ a, pyFloat s = some a →
      handle_message uid cid storeOk ud s =
        ({ ud with amount := some a, awaiting := some .description }, [],
         [.promptDescription a])) ∧
    (pyFloat s = none →
      handle_message uid cid storeOk ud s = (ud, [], [.invalidAmount])) := by
  constructor
  · intro a ha
    simp [handle_message, h, ha]
  · intro ha
    simp [handle_message, h, ha]

/-- Witness for C1: a numeric input advances the state, a non-numeric
input re-prompts. -/
theorem submit_amount_accepts_iff_parses_witness :
    handle_message 1 2 true ⟨some "expense", some "Salary", none, some .amount⟩ "7.5" =
      (⟨some "expense", some "Salary", some (mkRat 15 2), some .description⟩, [],
       [.promptDescription (mkRat 15 2)]) ∧
    handle_message 1 2 true ⟨some "expense", some "Salary", none, some .amount⟩ "lunch" =
      (⟨some "expense", some "Salary", none, some .amount⟩, [], [.invalidAmount]) := by
  constructor
  · exact (submit_amount_accepts_iff_parses 1 2 true
      ⟨some "expense", some "Salary", none, some .amount⟩ "7.5" rfl).1 (mkRat 15 2) (by decide)
  · exact (submit_amount_accepts_iff_parses 1 2 true
      ⟨some "expense", some "Salary", none, some .amount⟩ "lunch" rfl).2 (by decide)

/-- C3 counterexample: the choice "NotARealCategory" is not in the
category catalog, yet handle_category_selection stores it and advances
the state to AWAITING_AMOUNT -- contradicting the claim that a choice
outside the catalog is rejected and the state does not advance. -/
theorem select_category_accepts_unknown :
    ("NotARealCategory" ∉ catalogNames) ∧
    (handle_category_selection ⟨some "expense", none, none, some .category⟩
        "expense" "NotARealCategory").1 =
      ⟨some "expense", some "NotARealCategory", none, some .amount⟩ := by
  decide

/-- C3 (amended): select_category unconditionally stores the delivered
category and transaction type and advances to AWAITING_AMOUNT; no
catalog membership check is performed, so choices outside the catalog
are accepted exactly like catalog members. -/
theorem select_category_always_advances (ud : UserData) (tt c : String) :
    handle_category_selection ud tt c =
      ({ ud with category := some c, transaction_type := some tt,
                 awaiting := some .amount },
       [.categorySelected c]) := rfl

/-- C4 counterexample: with a failing persistence call, the commit step
leaves the scratch state exactly as it was (still AWAITING_DESCRIPTION)
and records nothing -- contradicting the claim that the scratch state is
cleared regardless of the persistence outcome. -/
theorem commit_state_kept_on_store_failure :
    (handle_message 1 2 false ⟨some "expense", some "Travel", some 5, some .description⟩
        "trip").1 =
      ⟨some "expense", some "Travel", some 5, some .description⟩ ∧
    (handle_message 1 2 false ⟨some "expense", some "Travel", some 5, some .description⟩
        "trip").2.1 = [] ∧
    (⟨some "expense", some "Travel", some 5, some .description⟩ : UserData) ≠
      UserData.empty := by
  decide

/-- C4 (amended): in AWAITING_DESCRIPTION, submit_description (free text
or /skip) commits: when the persistence call succeeds the transaction is
stored with the scratch fields and the scratch state is cleared; when
the persistence call raises, the handler aborts before the clear, so the
scratch state is unchanged (the flow is not terminal: it stays in
AWAITING_DESCRIPTION) and no transaction is recorded. -/
theorem submit_description_commit_behavior (uid cid : Int) (ud : UserData)
    (s tt c : String) (a : Rat)
    (hA : ud.awaiting = some .description)
    (hT : ud.transaction_type = some tt)
    (hC : ud.category = some c)
    (hAm : ud.amount = some a) :
    (handle_message uid cid true ud s =
      (UserData.empty, [⟨uid, cid, tt, a, c, s⟩],
       [.committed ⟨uid, cid, tt, a, c, s⟩])) ∧
    (handle_message uid cid false ud s = (ud, [], [])) ∧
    (skip_description uid cid true ud =
      (UserData.empty, [⟨uid, cid, tt, a, c, "No description"⟩],
       [.committed ⟨uid, cid, tt, a, c, "No description"⟩])) ∧
    (skip_description uid cid false ud = (ud, [], [])) := by
  simp [handle_message, skip_description, hA, hT, hC, hAm]

/-- Witness for C4 at a concrete scratch state. -/
theorem submit_description_commit_behavior_witness :
    (handle_message 1 2 true ⟨some "income", some "Salary", some 100, some .description⟩
        "march pay" =
      (UserData.empty, [⟨1, 2, "income", 100, "Salary", "march pay"⟩],
       [.committed ⟨1, 2, "income", 100, "Salary", "march pay"⟩])) ∧
    (handle_message 1 2 false ⟨some "income", some "Salary", some 100, some .description⟩
        "march pay" =
      (⟨some "income", some "Salary", some 100, some .description⟩, [], [])) := by
  have h := submit_description_commit_behavior 1 2
    ⟨some "income", some "Salary", some 100, some .description⟩
    "march pay" "income" "Salary" 100 rfl rfl rfl rfl
  exact ⟨h.1, h.2.1⟩

/-- C5 counterexample: a category-selection callback delivered while the
flow is in AWAITING_DESCRIPTION is not ignored: it overwrites the stored
category and transaction type and moves the step back to
AWAITING_AMOUNT, corrupting the in-progress flow -- contradicting the
claim that every transition outside its valid source state is a
no-op. -/
theorem category_callback_corrupts_mid_flow :
    (handle_category_selection
        ⟨some "expense", some "Food & Dining", some 5, some .description⟩
        "income" "Salary").1 ≠
      ⟨some "expense", some "Food & Dining", some 5, some .description⟩ ∧
    (handle_category_selection
        ⟨some "expense", some "Food & Dining", some 5, some .description⟩
        "income" "Salary").1 =
      ⟨some "income", some "Salary", some 5, some .amount⟩ := by
  decide

/-- C5 (amended): free text while no flow is active or while the flow
awaits a category selection, and /skip outside AWAITING_DESCRIPTION,
are silently ignored (state unchanged, nothing recorded, no reply); a
category-selection callback, by contrast, is processed in every state
and overwrites the scratch category, type and step. -/
theorem out_of_state_inputs_are_noops (uid cid : Int) (storeOk : Bool)
    (ud : UserData) (s : String) :
    (ud.awaiting = none → handle_message uid cid storeOk ud s = (ud, [], [])) ∧
    (ud.awaiting = some .category → handle_message uid cid storeOk ud s = (ud, [], [])) ∧
    (ud.awaiting ≠ some .description → skip_description uid cid storeOk ud = (ud, [], [])) := by
  refine ⟨fun h => ?_, fun h => ?_, fun h => ?_⟩
  · simp [handle_message, h]
  · simp [handle_message, h]
  · simp [skip_description, h]

/-- Witness for C5: idle text and an out-of-step /skip are no-ops. -/
theorem out_of_state_inputs_are_noops_witness :
    handle_message 1 2 true UserData.empty "hello" = (UserData.empty, [], []) ∧
    skip_description 1 2 true ⟨some "expense", none, none, some .category⟩ =
      (⟨some "expense", none, none, some .category⟩, [], []) := by
  constructor
  · exact (out_of_state_inputs_are_noops 1 2 true UserData.empty "hello").1 rfl
  · exact (out_of_state_inputs_are_noops 1 2 true
      ⟨some "expense", none, none, some .category⟩ "hello").2.2 (by decide)

/-- C8: a confirmed receipt extraction with amount 12.50, merchant
"Cafe X" and category "Food & Dining" is saved as an expense of 12.50 in
"Food & Dining" whose description contains "Cafe X". -/
theorem receipt_confirm_fields :
    (handle_extracted_transaction 1 2
        ⟨some (25/2), some "Cafe X", some "Food & Dining", ["Latte", "Cake", "Tea"]⟩).type =
      "expense" ∧
    (handle_extracted_transaction 1 2
        ⟨some (25/2), some "Cafe X", some "Food & Dining", ["Latte", "Cake", "Tea"]⟩).amount =
      25/2 ∧
    (handle_extracted_transaction 1 2
        ⟨some (25/2), some "Cafe X", some "Food & Dining", ["Latte", "Cake", "Tea"]⟩).category =
      "Food & Dining" ∧
    ∃ before after,
      (handle_extracted_transaction 1 2
          ⟨some (25/2), some "Cafe X", some "Food & Dining", ["Latte", "Cake", "Tea"]⟩).description =
        before ++ "Cafe X" ++ after := by
  refine ⟨rfl, rfl, rfl, "", " - Latte, Cake", ?_⟩
  decide

/-- C2 counterexample: a complete manual flow that enters the amount
"-5" commits a transaction with amount -5 and a catalog category --
the stored record violates the claimed invariant amount > 0. -/
theorem committed_amount_can_be_nonpositive :
    (run 1 2 true UserData.empty
       [.startFlow "expense", .selectCategory "expense" "Food & Dining",
        .text "-5", .text "lunch"]).2.1 =
      [⟨1, 2, "expense", -5, "Food & Dining", "lunch"⟩] ∧
    ((-5 : Rat) ≤ 0) ∧ "Food & Dining" ∈ catalogNames := by
  decide

/-- C2 (amended): of the claimed data-model invariant only the kind part
is enforced: every transaction created by a manual flow whose events
carry the bot's own kind tags has kind expense or income, and every
confirmed receipt transaction has kind expense.  Amount positivity and
catalog membership of the category are not checked anywhere (see the
counterexample). -/
theorem txn_kind_invariant (uid cid : Int) (storeOk : Bool) (ud : UserData)
    (evs : List Event) (h0 : kindOK ud.transaction_type)
    (hevs : ∀ e ∈ evs, eventKindsOK e = true) :
    (∀ t ∈ (run uid cid storeOk ud evs).2.1,
       t.type = "expense" ∨ t.type = "income") ∧
    (∀ ed : ExtractedData,
       (handle_extracted_transaction uid cid ed).type = "expense") :=
  ⟨run_kindOK uid cid storeOk evs ud h0 hevs, fun _ => rfl⟩

/-- Witness for C2: the kind of a concrete committed transaction. -/
theorem txn_kind_invariant_witness :
    (⟨1, 2, "income", 10, "Salary", "pay"⟩ : Txn).type = "expense" ∨
    (⟨1, 2, "income", 10, "Salary", "pay"⟩ : Txn).type = "income" := by
  have h := txn_kind_invariant 1 2 true UserData.empty
    [.startFlow "income", .selectCategory "income" "Salary",
     .text "10", .text "pay"]
    (Or.inl rfl) (by decide)
  exact h.1 ⟨1, 2, "income", 10, "Salary", "pay"⟩ (by decide)

theorem step_sim (uid cid : Int) (ok : Bool) (e : Event) :
    ∀ s1 s2, scratchSim s1 s2 →
      (step uid cid ok s1 e).2 = (step uid cid ok s2 e).2 ∧
      scratchSim (step uid cid ok s1 e).1 (step uid cid ok s2 e).1 := by
  rintro ⟨t1, c1, a1, w1⟩ ⟨t2, c2, a2, w2⟩ ⟨hA, hT, hC, hE⟩
  simp only at hA hT hC hE
  subst hA
  subst hT
  cases e with
  | startFlow tt2 => simp [step, addTransactionCmd, scratchSim]
  | selectCategory tt2 cc => simp [step, handle_category_selection, scratchSim]
  | text s =>
      cases w1 with
      | none =>
          obtain ⟨hc, ha⟩ : c1 = c2 ∧ a1 = a2 := by
            have := hE (Or.inl rfl)
            simpa using this
          subst hc
          subst ha
          exact ⟨rfl, scratchSim_refl _⟩
      | some aw =>
        cases aw with
        | category => simp [step, handle_message, scratchSim]
        | amount =>
            have hc : c1 = c2 := hC rfl
            subst hc
            cases hp : pyFloat s with
            | some v => simp [step, handle_message, hp, scratchSim]
            | none => simp [step, handle_message, hp, scratchSim]
        | description =>
            obtain ⟨hc, ha⟩ : c1 = c2 ∧ a1 = a2 := by
              have := hE (Or.inr rfl)
              simpa using this
            subst hc
            subst ha
            exact ⟨rfl, scratchSim_refl _⟩
  | skip =>
      cases w1 with
      | none =>
          obtain ⟨hc, ha⟩ : c1 = c2 ∧ a1 = a2 := by
            have := hE (Or.inl rfl)
            simpa using this
          subst hc
          subst ha
          exact ⟨rfl, scratchSim_refl _⟩
      | some aw =>
        cases aw with
        | category => simp [step, skip_description, scratchSim]
        | amount =>
            have hc : c1 = c2 := hC rfl
            subst hc
            simp [step, skip_description, scratchSim]
        | description =>
            obtain ⟨hc, ha⟩ : c1 = c2 ∧ a1 = a2 := by
              have := hE (Or.inr rfl)
              simpa using this
            subst hc
            subst ha
            exact ⟨rfl, scratchSim_refl _⟩

theorem run_sim (uid cid : Int) (ok : Bool) :
    ∀ (evs : List Event) (s1 s2 : UserData), scratchSim s1 s2 →
      (run uid cid ok s1 evs).2 = (run uid cid ok s2 evs).2 := by
  intro evs
  induction evs with
  | nil => intro s1 s2 _; rfl
  | cons e es ih =>
      intro s1 s2 h
      obtain ⟨ho, hs⟩ := step_sim uid cid ok e s1 s2 h
      have h2 := ih (step uid cid ok s1 e).1 (step uid cid ok s2 e).1 hs
      simp only [run]
      rw [ho, h2]

/-- C6 counterexample: starting a new entry flow on a scratch state that
still holds a category and an amount from a previous flow does not
discard them: both keys keep their old values -- contradicting the
claim that start_entry_flow discards the previously stored category and
amount. -/
theorem start_flow_keeps_old_scratch :
    ((addTransactionCmd ⟨some "expense", some "Travel", some 9, some .description⟩
        "income").1).category = some "Travel" ∧
    ((addTransactionCmd ⟨some "expense", some "Travel", some 9, some .description⟩
        "income").1).amount = some 9 := by
  decide

/-- C6 (amended): start_entry_flow only overwrites the transaction type
and the step (it leaves stale category and amount keys in the scratch
dictionary), but no field of the old flow can leak into the new flow: a
run from the post-start state produces exactly the transactions and
replies of a run from a clean scratch state, because committing again
requires passing through the category and amount steps, which overwrite
the stale values. -/
theorem start_flow_no_leakage (uid cid : Int) (ok : Bool) (ud : UserData)
    (tt : String) (evs : List Event) :
    (run uid cid ok (addTransactionCmd ud tt).1 evs).2 =
      (run uid cid ok (addTransactionCmd UserData.empty tt).1 evs).2 := by
  apply run_sim
  exact ⟨rfl, rfl, by simp [addTransactionCmd], by simp [addTransactionCmd]⟩

/-- C7: a manual flow that selects category c, enters an amount text
that parses to a, and then enters a description (or /skip) commits
exactly one transaction whose amount, category and description are
exactly the entered values; on /skip the description is the fixed
placeholder "No description". -/
theorem manual_commit_fields_exact (uid cid : Int) (ud : UserData)
    (tt tt2 c astr desc : String) (a : Rat) (h : pyFloat astr = some a) :
    (run uid cid true ud
       [.startFlow tt, .selectCategory tt2 c, .text astr, .text desc]).2.1 =
      [⟨uid, cid, tt2, a, c, desc⟩] ∧
    (run uid cid true ud
       [.startFlow tt, .selectCategory tt2 c, .text astr, .skip]).2.1 =
      [⟨uid, cid, tt2, a, c, "No description"⟩] := by
  constructor <;>
    simp [run, step, addTransactionCmd, handle_category_selection,
      handle_message, skip_description, h]

/-- Witness for C7 on a concrete flow with amount text "12.5". -/
theorem manual_commit_fields_exact_witness :
    (run 1 2 true UserData.empty
       [.startFlow "expense", .selectCategory "expense" "Shopping",
        .text "12.5", .text "shoes"]).2.1 =
      [⟨1, 2, "expense", mkRat 25 2, "Shopping", "shoes"⟩] ∧
    (run 1 2 true UserData.empty
       [.startFlow "expense", .selectCategory "expense" "Shopping",
        .text "12.5", .skip]).2.1 =
      [⟨1, 2, "expense", mkRat 25 2, "Shopping", "No description"⟩] :=
  manual_commit_fields_exact 1 2 UserData.empty "expense" "expense"
    "Shopping" "12.5" "shoes" (mkRat 25 2) (by decide)

/-- C9: on an empty transaction window both report operations return
their explicit no-data result before any aggregation (so no percentage
is computed on the empty aggregate), the no-data result occurs exactly
on the empty window, and the percentage expression is guarded so that a
zero expense total yields 0 instead of a division. -/
theorem empty_window_no_data :
    summary [] = SummaryResult.noData ∧
    generate_weekly_summary [] =
      WeeklySummary.noData "No expenditures found for the past 7 days." ∧
    (∀ ts : List Row, summary ts = SummaryResult.noData ↔ ts = []) ∧
    (∀ a : Rat, pct a 0 = 0) := by
  refine ⟨rfl, rfl, fun ts => ?_, fun a => by simp [pct]⟩
  cases ts with
  | nil => simp [summary]
  | cons t ts => simp [summary]

/-- C10: get_user_transactions applies the chat filter only when
chat_id is truthy: for None it behaves exactly as for 0 (a row is
returned iff it belongs to the user and is dated within the last days
days, over all chats); for a nonzero chat id the row must additionally
belong to that chat; and in every case the result is ordered by date
descending. -/
theorem get_user_transactions_spec (rows : List Row) (uid : Int)
    (now days : Nat) :
    (get_user_transactions rows uid none now days =
       get_user_transactions rows uid (some 0) now days) ∧
    (∀ t, t ∈ get_user_transactions rows uid none now days ↔
       (t ∈ rows ∧ t.user_id = uid ∧ now - days ≤ t.date)) ∧
    (∀ c : Int, c ≠ 0 → ∀ t,
       t ∈ get_user_transactions rows uid (some c) now days ↔
         (t ∈ rows ∧ t.user_id = uid ∧ t.chat_id = c ∧ now - days ≤ t.date)) ∧
    (∀ chat_id : Option Int,
       List.Sorted dateDesc (get_user_transactions rows uid chat_id now days)) := by
  refine ⟨rfl, fun t => ?_, fun c hc t => ?_, fun chat_id => ?_⟩
  · simp [get_user_transactions, truthy, List.mem_filter, and_assoc]
  · have htr : truthy (some c) = true := by simp [truthy, hc]
    simp [get_user_transactions, htr, List.mem_filter, and_assoc]
  · exact List.sorted_insertionSort dateDesc _

/-- Witness for C10 on a concrete table: a row from another chat is
returned on a falsy chat_id, excluded on a nonzero chat_id, and a row
outside the window is excluded. -/
theorem get_user_transactions_spec_witness :
    ((⟨1, 20, "income", 7, "Salary", "b", 95⟩ : Row) ∈
      get_user_transactions
        [⟨1, 10, "expense", 5, "Food & Dining", "a", 100⟩,
         ⟨1, 20, "income", 7, "Salary", "b", 95⟩,
         ⟨1, 10, "expense", 2, "Shopping", "d", 50⟩] 1 none 100 30) ∧
    ((⟨1, 20, "income", 7, "Salary", "b", 95⟩ : Row) ∉
      get_user_transactions
        [⟨1, 10, "expense", 5, "Food & Dining", "a", 100⟩,
         ⟨1, 20, "income", 7, "Salary", "b", 95⟩,
         ⟨1, 10, "expense", 2, "Shopping", "d", 50⟩] 1 (some 10) 100 30) ∧
    ((⟨1, 10, "expense", 2, "Shopping", "d", 50⟩ : Row) ∉
      get_user_transactions
        [⟨1, 10, "expense", 5, "Food & Dining", "a", 100⟩,
         ⟨1, 20, "income", 7, "Salary", "b", 95⟩,
         ⟨1, 10, "expense", 2, "Shopping", "d", 50⟩] 1 none 100 30) := by
  have h := get_user_transactions_spec
    [⟨1, 10, "expense", 5, "Food & Dining", "a", 100⟩,
     ⟨1, 20, "income", 7, "Salary", "b", 95⟩,
     ⟨1, 10, "expense", 2, "Shopping", "d", 50⟩] 1 100 30
  refine ⟨(h.2.1 _).mpr (by decide), fun hm => ?_, fun hm => ?_⟩
  · have h2 := (h.2.2.1 10 (by decide) _).mp hm
    exact absurd h2.2.2.1 (by decide)
  · have h2 := (h.2.1 _).mp hm
    exact absurd h2.2.2 (by decide)

end FinanceBot
